import Mathlib

/-! Verification of the xhs travel helper bot's generation/validation/learning core.

The Python sources (`bot_step2.py`, `skill_learning.py`) are shallowly embedded
below.  Text is modelled as `List Char` (named `Str`); Python's `in` substring
test becomes `containsSub`; `str.lower`/`str.strip` become `lowerS`/`stripS`
(the inputs of this program are ASCII plus CJK, where Lean's ASCII-only
`Char.toLower`/`Char.isWhitespace` agree with Python's behaviour on every
keyword and every character class the code tests).  The MongoDB collections
become association lists keyed by the record ids; the SHA-1/SHA-256 content
hashes are modelled by the (injective) identity on the hashed text, keeping the
id prefixes of the source.  MongoDB's static update-document validation is
modelled too: an `update_one` whose operators (including `$setOnInsert`)
target the same field path twice fails with `ConflictingUpdateOperators`
(code 40) before reading or writing anything, on inserts and updates alike —
the rule-upsert document of `store_learning` trips this check on `sources`.
The OpenAI generator is an opaque producer of outputs, one per attempt.
-/

namespace XhsBot

abbrev Str := List Char

/-- Python `str.lower` (ASCII + CJK alphabet; CJK is unaffected). -/
def lowerS (s : Str) : Str := s.map Char.toLower

/-- Python `str.strip()`. -/
def stripS (s : Str) : Str :=
  ((s.dropWhile Char.isWhitespace).reverse.dropWhile Char.isWhitespace).reverse

/-- `startsWithL s p` holds when `p` is a prefix of `s`. -/
def startsWithL : Str → Str → Bool
  | _, [] => true
  | [], _ :: _ => false
  | c :: cs, p :: ps => (p == c) && startsWithL cs ps

/-- Python's substring test `p in s`. -/
def containsSub : Str → Str → Bool
  | [], p => startsWithL [] p
  | c :: cs, p => startsWithL (c :: cs) p || containsSub cs p

/-- Python `any(k in s for k in kws)`. -/
def hasAnyKw (s : Str) (kws : List Str) : Bool := kws.any fun k => containsSub s k

/-! Hook/title validator: (`bot_step2.py` lines 177-194) -/

/-- Tension keyword list of `_hook_validation_reason`. -/
def hookTensionKeywords : List Str :=
  (["千万别", "别做", "别买", "别去", "避坑", "踩雷", "坑", "亏", "浪费", "后悔",
    "被宰", "被骗", "隐藏", "真相", "规则", "别按", "别选", "不要", "别", "错"]).map String.toList

/-- Generic-filler keyword list of `_hook_validation_reason`. -/
def hookGenericKeywords : List Str :=
  (["分享", "合集", "推荐", "攻略"]).map String.toList

/-- Specificity test: `re.search(r"\d", t)` or a unit/currency marker.
(Python's `\d` also matches non-ASCII digits, which never occur here.) -/
def specificityOk (t : Str) : Bool :=
  t.any Char.isDigit || hasAnyKw t ((["RM", "¥", "元", "%", "分钟", "小时", "天"]).map String.toList)

/-- Tension test of `_hook_validation_reason`. -/
def hasTension (t : Str) : Bool := hasAnyKw t hookTensionKeywords

/-- The checks of `_hook_validation_reason` on the already-stripped title. -/
def hookReasonCore (t : Str) : Bool × String :=
  if t.length < 10 ∨ t.length > 32 then (false, "length_not_in_10_32")
  else if ¬ specificityOk t then (false, "missing_specificity_signal")
  else if ¬ hasTension t then (false, "missing_tension_signal")
  else if hasAnyKw t hookGenericKeywords ∧ ¬ hasTension t then
    (false, "generic_filler_without_tension")
  else (true, "ok")

/-- `_hook_validation_reason` (`bot_step2.py` lines 181-194). -/
def hook_validation_reason (title : Str) : Bool × String :=
  hookReasonCore (stripS title)

/-- `is_valid_hook` (`bot_step2.py` line 177). -/
def is_valid_hook (title : Str) : Bool := (hook_validation_reason title).1

/-! Scorer: (`bot_step2.py` lines 683-761) -/

/-- `MY_LOCAL_KEYWORDS` (`bot_step2.py` line 74). -/
def MY_LOCAL_KEYWORDS : List Str :=
  (["马来西亚", "大马", "malaysia", "my", "kl", "吉隆坡", "雪兰莪", "森美兰", "槟城",
    "怡保", "马六甲", "金马仑", "波德申", "云顶", "东海岸"]).map String.toList

/-- `OVERSEAS_KEYWORDS` (`bot_step2.py` line 75). -/
def OVERSEAS_KEYWORDS : List Str :=
  (["日本", "韩国", "欧洲", "美国", "泰国", "越南", "巴厘", "新加坡"]).map String.toList

/-- A generated candidate; `score_item` reads `title`, `angle`,
`target_audience` (each already coerced to a string by `item.get(...) or ""`). -/
structure Cand where
  title : Str
  angle : Str
  target_audience : Str

/-- The score dict produced by `score_item`. -/
structure Score where
  save : Nat
  follow : Nat
  clarity : Nat
  exec : Nat
  total : Nat
deriving DecidableEq

/-- Save-potential block of `score_item` (input already lower-cased). -/
def save_score (title : Str) : Nat :=
  (if hasAnyKw title ((["避坑", "坑", "清单", "checklist", "别", "不要", "攻略", "省",
      "rm", "预算", "花费", "cost"]).map String.toList) then 6 else 0)
  + (if title.any Char.isDigit then 2 else 0)
  + (if hasAnyKw title ((["对比", "vs", "比较"]).map String.toList) then 2 else 0)

/-- Follow-potential block of `score_item`. -/
def follow_score (title angle audience : Str) : Nat :=
  (if hasAnyKw audience ((["新手", "第一次", "懒人", "budget", "穷游", "亲子", "情侣",
      "上班族", "独旅", "小白"]).map String.toList) then 5 else 0)
  + (if hasAnyKw title ((["系列", "第", "part", "合集"]).map String.toList) then 3 else 0)
  + (if hasAnyKw angle ((["系列", "模板", "框架"]).map String.toList) then 2 else 0)

/-- Clarity block of `score_item`. -/
def clarity_score (title : Str) : Nat :=
  (if title.length ≤ 28 then 5 else 0)
  + (if hasAnyKw title ((["怎么", "如何", "3", "5", "7", "10", "秒", "分钟", "小时",
      "rm", "usd"]).map String.toList) then 5 else 0)

/-- Execution block of `score_item`. -/
def exec_score (title angle : Str) : Nat :=
  (if hasAnyKw angle ((["步骤", "step", "清单", "模板", "流程", "策略", "预订", "booking",
      "机场", "骗局", "scam"]).map String.toList) then 6 else 0)
  + (if hasAnyKw title ((["准备", "带什么", "买什么", "用什么", "订"]).map String.toList)
     then 4 else 0)

/-- `has_overseas` test of `score_item` (line 729). -/
def has_overseas (title angle audience : Str) : Bool :=
  hasAnyKw (title ++ [' '] ++ angle ++ [' '] ++ audience) (OVERSEAS_KEYWORDS.map lowerS)

/-- Tiered locality bonus of `score_item` (lines 740-746). -/
def local_bonus (title angle audience : Str) : Nat :=
  let has_local := hasAnyKw (title ++ [' '] ++ angle ++ [' '] ++ audience) MY_LOCAL_KEYWORDS
  let has_budget := hasAnyKw (title ++ [' '] ++ angle)
    ((["rm", "周末", "2天1夜", "1天", "2d1n", "3d2n"]).map String.toList)
  if has_local ∧ hasAnyKw (title ++ [' '] ++ angle) [("rm").toList] then 6
  else if has_local ∧ has_budget then 4
  else if has_local then 2
  else 0

/-- `score_item` (`bot_step2.py` lines 683-761).  The Python code computes the
four sub-scores before testing `has_overseas`; the sub-scores are pure, so the
check is hoisted to the front with identical results. -/
def score_item (c : Cand) : Score :=
  let title := lowerS c.title
  let angle := lowerS c.angle
  let audience := lowerS c.target_audience
  if has_overseas title angle audience then ⟨0, 0, 0, 0, 0⟩
  else
    let s := min (save_score title) 10
    let f := min (follow_score title angle audience) 10
    let cl := min (clarity_score title) 10
    let e := min (exec_score title angle) 10
    ⟨s, f, cl, e, s + f + cl + e + local_bonus title angle audience⟩

/-! Region-ideation batch validator: (`bot_step2.py` lines 836-920) -/

/-- CJK test: the regex class `[一-鿿]`. -/
def isCJK (c : Char) : Bool := 0x4e00 ≤ c.toNat && c.toNat ≤ 0x9fff

/-- Latin/digit test: the regex class `[A-Za-z0-9]`. -/
def isLatinDigit (c : Char) : Bool :=
  ('A' ≤ c && c ≤ 'Z') || ('a' ≤ c && c ≤ 'z') || ('0' ≤ c && c ≤ '9')

/-- `len(re.findall(r"[一-鿿]", title))`. -/
def cjkLen (t : Str) : Nat := (t.filter isCJK).length

/-- Effective title length of `_validate_items` (lines 868-872): the CJK
code-point count plus a flat `2` when `re.findall(r"[A-Za-z0-9]+", title)` is
non-empty, i.e. when any Latin/digit character occurs. -/
def effective_len (t : Str) : Nat :=
  cjkLen t + (if t.any isLatinDigit then 2 else 0)

/-- Counts maximal `[A-Za-z0-9]+` runs; the flag says whether the previous
character belonged to a run. -/
def latinTokenCountAux : Bool → Str → Nat
  | _, [] => 0
  | prev, c :: cs =>
    if isLatinDigit c then (if prev then 0 else 1) + latinTokenCountAux true cs
    else latinTokenCountAux false cs

/-- `len(re.findall(r"[A-Za-z0-9]+", t))`: the number of contiguous Latin/digit
tokens. -/
def latinTokenCount (t : Str) : Nat := latinTokenCountAux false t

/-- Modelled from the spec: title length as "CJK code points plus a flat bonus
per contiguous Latin/digit token" — a `2`-point bonus for EACH token.  Kept
separate from `effective_len` (the code's measure) so the two can be
compared. -/
def effective_len_spec (t : Str) : Nat := cjkLen t + 2 * latinTokenCount t

/-- Python's `\w` over this program's alphabet (ASCII plus CJK ideographs;
Python's unicode `\w` also matches CJK, which is what makes `\b` fail between
an ideograph and a Latin letter). -/
def isWordChar (c : Char) : Bool := isLatinDigit c || c == '_' || isCJK c

/-- The regex class `[A-Z]`. -/
def isUpperAZ (c : Char) : Bool := 'A' ≤ c && c ≤ 'Z'

/-- The regex class `[a-zA-Z]`. -/
def isAlphaAZ (c : Char) : Bool := ('A' ≤ c && c ≤ 'Z') || ('a' ≤ c && c ≤ 'z')

/-- Consumes the maximal `[a-zA-Z]` run, returning its length and the rest. -/
def takeLetters : Str → Nat × Str
  | [] => (0, [])
  | c :: cs =>
    if isAlphaAZ c then
      let r := takeLetters cs
      (r.1 + 1, r.2)
    else (0, c :: cs)

/-- Word boundary after a match: end of string or a non-word character. -/
def boundaryAfter : Str → Bool
  | [] => true
  | c :: _ => !isWordChar c

/-- `\b[A-Z][a-zA-Z]+\b` can match starting at the head of this suffix
(assuming the position before it is a boundary): an upper-case letter, then at
least one more letter; the greedy `[a-zA-Z]+` must end at a boundary, which for
letters (always word characters) means the whole maximal run is taken. -/
def matchUpperAt : Str → Bool
  | [] => false
  | c :: cs =>
    isUpperAZ c &&
      (let r := takeLetters cs
       decide (1 ≤ r.1) && boundaryAfter r.2)

/-- Scans every position; the flag says whether the position starts at a word
boundary (start of string or preceded by a non-word character). -/
def hasUpperWordAux : Bool → Str → Bool
  | _, [] => false
  | prevOk, c :: cs => (prevOk && matchUpperAt (c :: cs)) || hasUpperWordAux (!isWordChar c) cs

/-- `re.search(r"\b[A-Z][a-zA-Z]+\b", title)` (line 876). -/
def has_upper_word (t : Str) : Bool := hasUpperWordAux true t

/-- `location_keywords` (line 875). -/
def location_keywords : List Str :=
  (["Hotel", "Resort", "Cabin", "Airbnb", "Forest", "Villa", "Homestay"]).map String.toList

/-- `banned_generic` (line 852). -/
def banned_generic : List Str :=
  (["好去处", "攻略", "推荐", "周末"]).map String.toList

/-- Characters removed by `re.sub(r"[\s/、，,。.!！?？\-]+", "", title)`. -/
def isCompactRemoved (c : Char) : Bool :=
  c.isWhitespace || c == '/' || c == '、' || c == '，' || c == ',' || c == '。' ||
    c == '.' || c == '!' || c == '！' || c == '?' || c == '？' || c == '-'

/-- `compact` of `_validate_items` (line 886). -/
def compact_title (t : Str) : Str := lowerS (t.filter fun c => !isCompactRemoved c)

/-- `region_words` (line 853): today's two regions plus the default pool. -/
def region_words (a b : Str) : List Str :=
  [lowerS a, lowerS b] ++
    (["penang", "genting", "melaka", "selangor", "kl", "perak", "johor", "sabah"]).map String.toList

/-- An element of the generator's `items` array: either a JSON object (whose
three accessed fields are coerced to strings by `str(it.get(...))`), or a
non-object value. -/
inductive RItem where
  | obj (title region location_hint : Str)
  | nonObj
deriving DecidableEq

/-- `True` when the item counts against the at-most-one "concrete location
signal" allowance (line 877-879): no `\b[A-Z][a-zA-Z]+\b` match and no location
keyword in the (stripped) title. -/
def lacks_location_signal (title : Str) : Bool :=
  !has_upper_word title && !hasAnyKw title location_keywords

/-- Per-item rejection reasons of `_validate_items`, in source order. -/
inductive VReason where
  | mustBeObject
  | emptyFields
  | lengthOutOfRange
  | regionInvalid
  | hintTooGeneric
  | bannedGeneric
  | genericRegionWord
deriving DecidableEq

/-- The f-string reason texts of `_validate_items` for item `i`. -/
def vreasonText (i : Nat) : VReason → String
  | .mustBeObject => "item#" ++ toString i ++ " must be object"
  | .emptyFields => "item#" ++ toString i ++ " has empty fields"
  | .lengthOutOfRange => "item#" ++ toString i ++ " title length out of range"
  | .regionInvalid => "item#" ++ toString i ++ " region invalid"
  | .hintTooGeneric => "item#" ++ toString i ++ " location_hint too generic"
  | .bannedGeneric => "item#" ++ toString i ++ " title contains banned generic phrase"
  | .genericRegionWord => "item#" ++ toString i ++ " title is generic region word"

/-- The body of `_validate_items`'s loop for an object item (lines 863-889),
in source order, on the raw `title`/`region`/`location_hint` strings; the
loop's local `title`/`region`/`hint` bindings are written out as
`stripS t0` / `lowerS (stripS r0)` / `stripS h0`.  On success it returns the
pair the loop threads on: whether the item lacks a concrete-location signal,
and its normalized region. -/
def checkItemCore (a b t0 r0 h0 : Str) : Except VReason (Bool × Str) :=
  if stripS t0 = [] ∨ lowerS (stripS r0) = [] ∨ stripS h0 = [] then .error .emptyFields
  else if effective_len (stripS t0) < 14 ∨ effective_len (stripS t0) > 18 then
    .error .lengthOutOfRange
  else if ¬ (lowerS (stripS r0) = a ∨ lowerS (stripS r0) = b) then .error .regionInvalid
  else if (stripS h0).length < 2 ∨ lowerS (stripS h0) = lowerS (stripS r0) then
    .error .hintTooGeneric
  else if hasAnyKw (stripS t0) banned_generic then .error .bannedGeneric
  else if compact_title (stripS t0) ∈ region_words a b then .error .genericRegionWord
  else .ok (lacks_location_signal (stripS t0), lowerS (stripS r0))

/-- The per-item body of `_validate_items`'s loop (lines 861-889): non-object
items are rejected outright, object items go through `checkItemCore`. -/
def checkItem (a b : Str) : RItem → Except VReason (Bool × Str)
  | .nonObj => .error .mustBeObject
  | .obj t0 r0 h0 => checkItemCore a b t0 r0 h0

/-- The loop plus the two batch-level checks of `_validate_items`, threading
the 1-based index, the `seen_regions` set (a list, queried by membership) and
the `location_signal_fails` counter. -/
def validateItemsGo (a b : Str) : List RItem → Nat → List Str → Nat → Bool × String
  | [], _, seen, fails =>
    if fails > 1 then (false, "too many items lack concrete location signal")
    else if a ∉ seen ∨ b ∉ seen then (false, "items do not cover both regions")
    else (true, "ok")
  | it :: rest, i, seen, fails =>
    match checkItem a b it with
    | .error r => (false, vreasonText i r)
    | .ok p => validateItemsGo a b rest (i + 1) (p.2 :: seen) (fails + if p.1 then 1 else 0)

/-- The `items` value handed to `_validate_items`: `None` (response not a JSON
object, or no `items` key), a non-list value, or an actual list. -/
inductive ItemsField where
  | missing
  | notList
  | list (l : List RItem)
deriving DecidableEq

/-- `_validate_items` (`bot_step2.py` lines 855-894). -/
def validate_items (a b : Str) : ItemsField → Bool × String
  | .missing => (false, "items must be list of 5")
  | .notList => (false, "items must be list of 5")
  | .list l =>
    if l.length ≠ 5 then (false, "items must be list of 5")
    else validateItemsGo a b l 1 [] 0

/-- One generator response for one attempt: either text that is not valid JSON,
or a parsed value with its `items` field. -/
inductive GenOut where
  | badJSON
  | parsed (items : ItemsField)
deriving DecidableEq

/-- The value `return items` yields when validation succeeded (which implies
the field was an actual list). -/
def extract_items : ItemsField → List RItem
  | .list l => l
  | _ => []

/-- The `for _ in range(3)` retry loop of `generate_5_title_candidates`
(lines 896-920), threading `last_err`; when the attempts are exhausted it
raises `ValueError`, modelled as `Except.error` with the f-string message. -/
def generate5Loop (a b : Str) : List GenOut → String → Except String (List RItem)
  | [], last => .error ("title candidates validation failed after retries: " ++ last)
  | g :: rest, last =>
    match g with
    | .badJSON => generate5Loop a b rest "invalid JSON"
    | .parsed itf =>
      if (validate_items a b itf).1 then .ok (extract_items itf)
      else generate5Loop a b rest (validate_items a b itf).2

/-- `generate_5_title_candidates` (`bot_step2.py` lines 836-920), with the
three successive generator responses made explicit. -/
def generate_5_title_candidates (a b : Str) (g1 g2 g3 : GenOut) : Except String (List RItem) :=
  generate5Loop a b [g1, g2, g3] ""

/-- The failure reason an attempt contributes as `last_err`, or `none` when
the attempt's batch passes validation. -/
def attempt_fail_reason (a b : Str) : GenOut → Option String
  | .badJSON => some ("invalid JSON")
  | .parsed itf =>
    let v := validate_items a b itf
    if v.1 then none else some v.2

/-- Normalized region of an item, as `_validate_items` computes it. -/
def region_of : RItem → Str
  | .obj _ r _ => lowerS (stripS r)
  | .nonObj => []

/-- Whether an item lacks the concrete-location signal (on its stripped
title). -/
def lacks_of : RItem → Bool
  | .obj t _ _ => lacks_location_signal (stripS t)
  | .nonObj => false

/-- Number of items in a batch lacking the concrete-location signal. -/
def count_lacking (l : List RItem) : Nat := (l.filter lacks_of).length

/-- A batch whose first item carries a banned generic phrase (`攻略`), hence
fails validation on every attempt. -/
def cexBadItem : RItem :=
  .obj ("怡保两天一夜攻略人均一百五十块").toList ("penang").toList ("怡保老街场").toList

/-- A generator output that parses but never validates. -/
def cexBadBatch : GenOut := .parsed (.list (List.replicate 5 cexBadItem))

/-! Skill-context budget eviction: (`bot_step2.py` lines 116-155) -/

/-- `RULE_SKILL_FILES` (`bot_step2.py` line 72). -/
def RULE_SKILL_FILES : List Str :=
  (["growth_rules.md", "script_framework.md", "hook_library.md"]).map String.toList

/-- `SKILL_TEXT_CAP` (`bot_step2.py` line 63). -/
def SKILL_TEXT_CAP : Nat := 16000

/-- A loaded skill document: file name and text. -/
abbrev SkillDoc := Str × Str

/-- `sum(len(t) for _, t in kept)`. -/
def totalLen (l : List SkillDoc) : Nat := (l.map fun d => d.2.length).sum

/-- Combined length of the protected (rule-file) documents. -/
def protTotal (l : List SkillDoc) : Nat :=
  totalLen (l.filter fun d => decide (d.1 ∈ RULE_SKILL_FILES))

/-- Removes the last document whose name is not protected — the element the
loop `for i in range(len(kept)-1, -1, -1)` finds — or `none` when every
document is protected. -/
def popLastUnprot : List SkillDoc → Option (List SkillDoc)
  | [] => none
  | d :: rest =>
    match popLastUnprot rest with
    | some r => some (d :: r)
    | none => if d.1 ∈ RULE_SKILL_FILES then none else some rest

/-- One iteration of the eviction loop: pop the found index, falling back to
the last index (`idx = len(kept) - 1`) when every document is protected. -/
def evictStep (kept : List SkillDoc) : List SkillDoc :=
  match popLastUnprot kept with
  | some k => k
  | none => kept.dropLast

/-- Fuel-indexed form of the `while` loop of `load_skill_texts`
(lines 144-154). -/
def enforceCapFuel : Nat → List SkillDoc → List SkillDoc
  | 0, kept => kept
  | n + 1, kept =>
    if totalLen kept > SKILL_TEXT_CAP then
      if kept = [] then [] else enforceCapFuel n (evictStep kept)
    else kept

/-- The byte-budget eviction of `load_skill_texts`: every loop iteration
removes exactly one document, so `kept.length` units of fuel are exactly the
iterations the `while` loop can perform before `kept` is empty (at which point
its total is `0` and the loop stops anyway). -/
def enforceSkillCap (kept : List SkillDoc) : List SkillDoc :=
  enforceCapFuel kept.length kept

/-! Wins snapshot loading: (`bot_step2.py` lines 459-506) -/

/-- The `items` field of a parsed wins document, over an opaque item type. -/
inductive WItems (α : Type) where
  | missing
  | notList
  | list (l : List α)
deriving DecidableEq

/-- The content of the persisted `wins.json`: text which `json.loads` rejects,
a JSON value that is not a dict, or a dict with its `items` field. -/
inductive WinsJSON (α : Type) where
  | invalid
  | nonDict
  | dict (items : WItems α)
deriving DecidableEq

/-- The parts of the filesystem `load_wins` touches: whether `/data` is
mounted, the wins file's parsed content (or `none` when absent), and the
backup files, newest first. -/
structure WinsFS (α : Type) where
  dataDirExists : Bool
  winsFile : Option (WinsJSON α)
  backups : List (String × WinsJSON α)
deriving DecidableEq

/-- `_wins_default()` as persisted: a dict whose `items` is an empty list
(`version`/`updated_at` are not modelled). -/
def wins_default (α : Type) : WinsJSON α := .dict (.list [])

/-- The backup name `f"wins.json.bak.{ts}"`. -/
def backup_name (ts : String) : String := "wins.json.bak." ++ ts

/-- The corruption warning message of `load_wins`. -/
def corrupt_warning (ts : String) : String :=
  "⚠️ wins.json 已损坏，已备份为 " ++ backup_name ts ++ " 并重置。"

/-- The `except` branch of `load_wins` (lines 496-506): rename the corrupted
file to the timestamped backup, persist a fresh default, and warn. -/
def load_wins_corrupt {α : Type} (ts : String) (fs : WinsFS α) (c : WinsJSON α) :
    (List α × Option String) × WinsFS α :=
  (([], some (corrupt_warning ts)),
   ⟨fs.dataDirExists, some (wins_default α), (backup_name ts, c) :: fs.backups⟩)

/-- `load_wins` (`bot_step2.py` lines 480-506).  `ts` is the
`datetime.now(...)` timestamp string used for the backup name.  A parse
error, or a dict whose `items` is missing or not a list, raises inside the
`try` and lands in the corruption branch; a parsed non-dict value yields the
literal `[]` for `items`, which IS a list, so it returns quietly. -/
def load_wins {α : Type} (ts : String) (fs : WinsFS α) :
    (List α × Option String) × WinsFS α :=
  if fs.dataDirExists = false then
    (([], some ("⚠️ /data 未挂载，已跳过爆款学习。")), fs)
  else
    match fs.winsFile with
    | none => (([], none), ⟨fs.dataDirExists, some (wins_default α), fs.backups⟩)
    | some (.dict (.list l)) => ((l, none), fs)
    | some .nonDict => (([], none), fs)
    | some (.dict .missing) => load_wins_corrupt ts fs (.dict .missing)
    | some (.dict .notList) => load_wins_corrupt ts fs (.dict .notList)
    | some .invalid => load_wins_corrupt ts fs .invalid

/-! Draft selection callbacks: (`bot_step2.py` lines 1107-1211) -/

/-- The `pick` branch of `cb_handler` (lines 1107-1147), restricted to its
effect on `d["selected"]`: an out-of-range index returns early; an already
selected index is removed (toggle) and the list resorted; with two selections
the list is left alone; otherwise the index is appended and the list
resorted.  Python's `list.sort()` is an ascending stable sort. -/
def pick_selected (sel : List Int) (idx : Int) : List Int :=
  if idx < 1 ∨ idx > 5 then sel
  else if idx ∈ sel then List.insertionSort (· ≤ ·) (sel.erase idx)
  else if 2 ≤ sel.length then sel
  else List.insertionSort (· ≤ ·) (sel ++ [idx])

/-- The `clear` branch of `cb_handler` (line 1204): `d["selected"] = []`. -/
def clear_selected (_sel : List Int) : List Int := []

/-- Invariant on a draft's `selected` list: at most 2 entries, ascending and
duplicate-free, each between 1 and 5. -/
abbrev selected_inv (sel : List Int) : Prop :=
  sel.length ≤ 2 ∧ List.Pairwise (· ≤ ·) sel ∧ sel.Nodup ∧ ∀ x ∈ sel, 1 ≤ x ∧ x ≤ 5

/-! Knowledge store: (`skill_learning.py` lines 234-374)

The three MongoDB collections become association lists keyed by the `_id`
strings.  The SHA-1/SHA-256 hex digests are modelled by the hashed text itself
(an ideal injective content hash), keeping the `rule:`/`ing:`/`log:` prefixes;
the `[:16]` digest truncation of `ing_id` is dropped accordingly. -/

/-- One member of a rule's `sources` set. -/
structure SourceRef where
  ing_id : Str
  script_hash : Str
  created_at_utc : Str
deriving DecidableEq

/-- A document of the `xhs_skill_rules` collection. -/
structure RuleRecord where
  rule : Str
  first_seen_at_utc : Str
  sources : List SourceRef
  why : Str
  example_from_script : Str
  content_type : Str
  hook_type : List Str
  tags : List Str
  last_seen_at_utc : Str
  seen_count : Nat
deriving DecidableEq

/-- Association-list lookup by id (Mongo's `{"_id": key}` filter). -/
def lookupA {β : Type} : List (Str × β) → Str → Option β
  | [], _ => none
  | (k, v) :: rest, key => if k = key then some v else lookupA rest key

/-- Replaces the record stored under `key`. -/
def updateA {β : Type} : List (Str × β) → Str → β → List (Str × β)
  | [], _, _ => []
  | (k, v) :: rest, key, newv =>
    if k = key then (k, newv) :: rest else (k, v) :: updateA rest key newv

/-- Mongo `$addToSet`: append unless already present. -/
def add_to_set (xs : List SourceRef) (x : SourceRef) : List SourceRef :=
  if x ∈ xs then xs else xs ++ [x]

/-- `f"rule:{hashlib.sha1(rule_text...).hexdigest()}"` under the ideal-hash
model. -/
def rule_id (ruleText : Str) : Str := ("rule:").toList ++ ruleText

abbrev RuleStore := List (Str × RuleRecord)

/-- The MongoDB write errors this embedding distinguishes.
`conflictingUpdateOperators` is server error code 40, raised by pymongo as a
`WriteError`. -/
inductive MongoError where
  | conflictingUpdateOperators
deriving DecidableEq

/-- Field paths targeted by `$setOnInsert` in the rule-upsert update document
(`skill_learning.py` lines 292-296). -/
def ruleSetOnInsertPaths : List Str :=
  (["rule", "first_seen_at_utc", "sources"]).map String.toList

/-- Field paths targeted by `$set` in the rule-upsert update document
(lines 297-304). -/
def ruleSetPaths : List Str :=
  (["why", "example_from_script", "content_type", "hook_type", "tags",
    "last_seen_at_utc"]).map String.toList

/-- Field paths targeted by `$inc` in the rule-upsert update document
(line 305). -/
def ruleIncPaths : List Str := (["seen_count"]).map String.toList

/-- Field paths targeted by `$addToSet` in the rule-upsert update document
(lines 306-312). -/
def ruleAddToSetPaths : List Str := (["sources"]).map String.toList

/-- Whether two operators' path lists share a field path. -/
def anyShared (xs ys : List Str) : Bool := xs.any fun p => p ∈ ys

/-- MongoDB's static update-document validation for the rule upsert: no two
update operators (`$setOnInsert` included) may target the same field path;
a shared path fails the whole call with `ConflictingUpdateOperators` before
anything is read or written, on inserts and updates alike.  This document
shares `sources` between `$setOnInsert` and `$addToSet`. -/
def ruleUpdateConflict : Bool :=
  anyShared ruleSetOnInsertPaths ruleSetPaths
    || anyShared ruleSetOnInsertPaths ruleIncPaths
    || anyShared ruleSetOnInsertPaths ruleAddToSetPaths
    || anyShared ruleSetPaths ruleIncPaths
    || anyShared ruleSetPaths ruleAddToSetPaths
    || anyShared ruleIncPaths ruleAddToSetPaths

/-- The merge the rule-upsert update document describes — what
`skill_rules.update_one` would store had its operators passed validation:
`$setOnInsert` seeds `rule`, `first_seen_at_utc` and an empty `sources`;
`$set` refreshes the mutable fields; `$inc` bumps `seen_count` (creating it
as 1 on insert); `$addToSet` appends the source reference.  Returns the new
store and whether a record was inserted (`result.upserted_id`). -/
def upsertRuleApplied (store : RuleStore) (now ingId scriptHash : Str)
    (why ex ctype : Str) (hookTypes tags : List Str) (ruleText : Str) :
    RuleStore × Bool :=
  let rid := rule_id ruleText
  let src : SourceRef := ⟨ingId, scriptHash, now⟩
  match lookupA store rid with
  | none =>
    (store ++ [(rid, ⟨ruleText, now, [src], why, ex, ctype, hookTypes, tags, now, 1⟩)], true)
  | some rec =>
    (updateA store rid
      { rec with
        why := why
        example_from_script := ex
        content_type := ctype
        hook_type := hookTypes
        tags := tags
        last_seen_at_utc := now
        seen_count := rec.seen_count + 1
        sources := add_to_set rec.sources src },
     false)

/-- The `skill_rules.update_one(..., upsert=True)` call of `store_learning`
(lines 289-315): MongoDB validates the update document first, and this
document targets `sources` in both `$setOnInsert` and `$addToSet`, so the
call raises `ConflictingUpdateOperators` on every invocation — insert or
update — and stores nothing; the described merge would apply only were the
document conflict-free. -/
def upsertRule (store : RuleStore) (now ingId scriptHash : Str)
    (why ex ctype : Str) (hookTypes tags : List Str) (ruleText : Str) :
    Except MongoError (RuleStore × Bool) :=
  if ruleUpdateConflict then .error .conflictingUpdateOperators
  else .ok (upsertRuleApplied store now ingId scriptHash why ex ctype hookTypes tags ruleText)

/-- The telegram reference stored with an ingest. -/
structure TGRef where
  chat_id : Int
  user_id : Int
  message_id : Int
deriving DecidableEq

/-- The `/learn_script` metadata dict; missing keys are already coerced to
`""` by `metadata.get(...) or ""`.  `mtype` models the `"type"` key. -/
structure Metadata where
  platform : Str
  mtype : Str
  performance : Str
deriving DecidableEq

/-- A `reusable_rules` entry: a JSON object (its three fields coerced to
strings by `str(item.get(...) or "")`) or a non-object value, which the loop
skips. -/
inductive RuleEntry where
  | obj (rule why example_from_script : Str)
  | notDict
deriving DecidableEq

/-- The raw `reusable_rules` field: absent (`.get(...)` falsy), present but
not a list, or an actual list. -/
inductive RulesField where
  | absent
  | notList
  | list (l : List RuleEntry)
deriving DecidableEq

/-- The analysis payload of `store_learning`.  Except for `reusable_rules`
(whose `or [] / isinstance` normalization from lines 251-253 is embedded in
`store_learning` itself), the fields model the values after the code's own
string/list coercions (lines 242-250). -/
structure Analysis where
  hook_text : Str
  hook_types : List Str
  content_type : Str
  tags : List Str
  reusable_rules : RulesField
  do_not_learn : List Str
deriving DecidableEq

/-- A document of the `xhs_skill_ingests` collection. -/
structure IngestRecord where
  script_hash : Str
  created_at_utc : Str
  tg : TGRef
  meta : Metadata
  analysis : Analysis
  hook_text : Str
  content_type : Str
  tags : List Str
  rules_count : Nat
deriving DecidableEq

/-- A document of the append-only `xhs_skill_logs` collection. -/
structure LogEvent where
  lid : Str
  log_type : Str
  created_at_utc : Str
  script_hash : Str
  hook_text : Str
  content_type : Str
  summary : Str
  do_not_learn : List Str
deriving DecidableEq

/-- The three collections `store_learning` mutates. -/
structure SkillState where
  ingests : List (Str × IngestRecord)
  rules : RuleStore
  logs : List LogEvent
deriving DecidableEq

/-- The dict `store_learning` returns. -/
structure StoreResult where
  script_hash : Str
  rules_processed : Nat
  new_rules : Nat
  updated_rules : Nat
  updated_files : List Str
deriving DecidableEq

/-- Field paths targeted by `$setOnInsert` in the ingest-upsert update
document (lines 257-261). -/
def ingestSetOnInsertPaths : List Str :=
  (["_id", "script_hash", "created_at_utc"]).map String.toList

/-- Field paths targeted by `$set` in the ingest-upsert update document
(lines 262-274). -/
def ingestSetPaths : List Str :=
  (["tg", "meta", "analysis", "hook_text", "content_type", "tags",
    "rules_count"]).map String.toList

/-- MongoDB's static validation of the ingest update document: its two
operators target disjoint field paths, so — unlike the rule upsert — it
passes and the merge is applied. -/
def ingestUpdateConflict : Bool := anyShared ingestSetOnInsertPaths ingestSetPaths

/-- The merge the `skill_ingests.update_one(..., upsert=True)` call applies
(lines 254-277; its update document passes validation): `$setOnInsert` keeps
`script_hash`/`created_at_utc` of an existing record, `$set` refreshes
everything else. -/
def upsert_ingest (ings : List (Str × IngestRecord)) (ingId now scriptHash : Str)
    (tg : TGRef) (meta : Metadata) (a : Analysis) (hookText ctype : Str)
    (tags : List Str) (rulesCount : Nat) : List (Str × IngestRecord) :=
  match lookupA ings ingId with
  | none => ings ++ [(ingId, ⟨scriptHash, now, tg, meta, a, hookText, ctype, tags, rulesCount⟩)]
  | some old =>
    updateA ings ingId
      { old with
        tg := tg
        meta := meta
        analysis := a
        hook_text := hookText
        content_type := ctype
        tags := tags
        rules_count := rulesCount }

/-- The `for item in rules` loop of `store_learning` (lines 281-319),
threading the rule store and the `new_rules`/`updated_rules`/`rules_valid`
counters: non-object entries and entries whose stripped rule text is empty are
skipped; the rest call the rule upsert.  When that call raises (second
component `some e`) the loop aborts there, the exception propagating with the
collection as mutated so far (the failing call itself writes nothing). -/
def process_rules (now ingId scriptHash ctype : Str) (hookTypes tags : List Str) :
    List RuleEntry → RuleStore → Nat → Nat → Nat →
      (RuleStore × Nat × Nat × Nat) × Option MongoError
  | [], store, n, u, v => ((store, n, u, v), none)
  | .notDict :: rest, store, n, u, v =>
    process_rules now ingId scriptHash ctype hookTypes tags rest store n u v
  | .obj rule why ex :: rest, store, n, u, v =>
    if stripS rule = [] then
      process_rules now ingId scriptHash ctype hookTypes tags rest store n u v
    else
      match upsertRule store now ingId scriptHash why ex ctype hookTypes tags
          (stripS rule) with
      | .error e => ((store, n, u, v), some e)
      | .ok res =>
        process_rules now ingId scriptHash ctype hookTypes tags rest res.1
          (n + if res.2 then 1 else 0) (u + if res.2 then 0 else 1) (v + 1)

/-- Entries the loop actually processes: objects with non-empty stripped rule
text. -/
def valid_rule_entry : RuleEntry → Bool
  | .obj rule _ _ => !(stripS rule == [])
  | .notDict => false

/-- Number of processable entries in the raw `reusable_rules` field. -/
def count_valid_rules : RulesField → Nat
  | .list l => (l.filter valid_rule_entry).length
  | _ => 0

/-- Python `s.strip(" |")`. -/
def strip_space_bar (s : Str) : Str :=
  ((s.dropWhile fun c => c == ' ' || c == '|').reverse.dropWhile
      fun c => c == ' ' || c == '|').reverse

/-- `str(n)` for the counters interpolated into log strings. -/
def natToStr (n : Nat) : Str := (toString n).toList

/-- `str(i)` for the telegram ids interpolated into `win_key`. -/
def intToStr (i : Int) : Str := (toString i).toList

/-- `win_summary` of `store_learning` (line 320). -/
def win_summary (hookText : Str) (rulesValid : Nat) (ctype : Str) : Str :=
  strip_space_bar
    (hookText.take 120 ++ (" | rules=").toList ++ natToStr rulesValid ++
      (" | type=").toList ++ ctype)

/-- `f"ing:{script_hash[:16]}"` under the ideal-hash model (the digest
truncation is dropped to keep the modelled hash injective). -/
def ing_id_of (scriptHash : Str) : Str := ("ing:").toList ++ scriptHash

/-- `hashlib.sha256(script_text...).hexdigest()` under the ideal-hash model. -/
def script_hash_of (script : Str) : Str := script

/-- `SKILLS_WRITE_FILES` under the default environment:
`os.getenv("SKILLS_WRITE_FILES", "0").strip() == "1"` is `False`, so the
skill-file append branch (lines 354-367) is skipped and `updated_files` stays
empty. -/
def SKILLS_WRITE_FILES : Bool := false

/-- `store_learning` (`skill_learning.py` lines 234-374) on an available
database (`get_cols()` not `None`; the unavailable path raises before touching
state).  `now`, `winNow` and `failNow` are the three `now_utc_iso()` samples.
The first component is the returned result dict, or the MongoDB write error
the function raises; the second is the state of the three collections when
control leaves the function — when the rules loop raises, the ingest upsert
has already happened and the win/failure log inserts are never reached. -/
def store_learning (meta : Metadata) (a : Analysis) (script : Str) (tg : TGRef)
    (st : SkillState) (now winNow failNow : Str) :
    Except MongoError StoreResult × SkillState :=
  if ingestUpdateConflict then (.error .conflictingUpdateOperators, st)
  else
    let scriptHash := script_hash_of script
    let ingId := ing_id_of scriptHash
    let hookText := a.hook_text
    let ctype := a.content_type
    let tags := a.tags
    let rules := match a.reusable_rules with
      | .list l => l
      | _ => []
    let ings := upsert_ingest st.ingests ingId now scriptHash tg meta a hookText ctype tags
      rules.length
    match process_rules now ingId scriptHash ctype a.hook_types tags rules st.rules 0 0 0 with
    | (pr, some e) => (.error e, ⟨ings, pr.1, st.logs⟩)
    | (pr, none) =>
      let winKey := ("win").toList ++ scriptHash ++ winNow ++ intToStr tg.chat_id ++
        intToStr tg.message_id
      let winEvent : LogEvent :=
        ⟨("log:").toList ++ winKey, ("win").toList, winNow, scriptHash, hookText, ctype,
          win_summary hookText pr.2.2.2 ctype, []⟩
      let logs1 := st.logs ++ [winEvent]
      let failKey := ("failure").toList ++ scriptHash ++ failNow ++ intToStr tg.chat_id ++
        intToStr tg.message_id
      let failEvent : LogEvent :=
        ⟨("log:").toList ++ failKey, ("failure").toList, failNow, scriptHash, hookText,
          ctype, [], a.do_not_learn⟩
      let logs2 := if a.do_not_learn ≠ [] then logs1 ++ [failEvent] else logs1
      let updatedFiles : List Str := []
      (.ok ⟨scriptHash, pr.2.2.2, pr.2.1, pr.2.2.1, updatedFiles⟩, ⟨ings, pr.1, logs2⟩)

/-! Theorems. -/

theorem startsWithL_iff (s p : Str) : startsWithL s p = true ↔ p <+: s := by
  induction s generalizing p with
  | nil =>
    cases p with
    | nil => simp [startsWithL]
    | cons c cs => simp [startsWithL]
  | cons c cs ih =>
    cases p with
    | nil => simp [startsWithL]
    | cons q qs =>
      rw [show startsWithL (c :: cs) (q :: qs) = ((q == c) && startsWithL cs qs) from rfl,
        Bool.and_eq_true, beq_iff_eq, ih, List.cons_prefix_cons]

theorem containsSub_iff (s p : Str) : containsSub s p = true ↔ p <:+: s := by
  induction s with
  | nil =>
    cases p with
    | nil => simp [containsSub, startsWithL]
    | cons c cs => simp [containsSub, startsWithL]
  | cons c cs ih =>
    rw [containsSub, Bool.or_eq_true, startsWithL_iff, ih, List.infix_cons_iff]

theorem containsSub_append_left (s t p : Str) (h : containsSub s p = true) :
    containsSub (s ++ t) p = true := by
  rw [containsSub_iff] at h ⊢
  obtain ⟨u, v, huv⟩ := h
  exact ⟨u, v ++ t, by rw [← huv]; simp⟩

theorem containsSub_append_right (s t p : Str) (h : containsSub t p = true) :
    containsSub (s ++ t) p = true := by
  rw [containsSub_iff] at h ⊢
  obtain ⟨u, v, huv⟩ := h
  exact ⟨s ++ u, v, by rw [← huv]; simp⟩

theorem containsSub_lowerS (s p : Str) (h : p <:+: s) :
    containsSub (lowerS s) (lowerS p) = true :=
  (containsSub_iff _ _).2 (h.map Char.toLower)

/-- C7 counterexample: this title is from the banned generic-filler set
(it contains `分享`), has no tension signal, passes length and specificity —
yet `_hook_validation_reason` reports `missing_tension_signal`, not
`generic_filler_without_tension`. -/
theorem hook_generic_filler_cex :
    hasAnyKw (stripS ("3天槟城行程分享真的很好玩").toList) hookGenericKeywords = true ∧
    hasTension (stripS ("3天槟城行程分享真的很好玩").toList) = false ∧
    hook_validation_reason ("3天槟城行程分享真的很好玩").toList =
      (false, "missing_tension_signal") := by
  refine ⟨by decide, by decide, by decide⟩

/-- C7 amended: a generic-filler title without a tension signal is rejected
with reason `missing_tension_signal`; the reason
`generic_filler_without_tension` is never returned for any title, because the
guard that produces it requires the absence of a tension signal after the
validator has already returned on that very absence. -/
theorem hook_reason_never_generic_filler (t : Str) :
    (hook_validation_reason t).2 ≠ "generic_filler_without_tension" := by
  unfold hook_validation_reason hookReasonCore
  by_cases h3 : hasTension (stripS t)
  · simp only [h3, not_true_eq_false, if_false, and_false]
    split_ifs
    all_goals try exact (‹False›).elim
    all_goals decide
  · simp only [h3, not_false_eq_true, if_true]
    split_ifs
    all_goals try exact (‹False›).elim
    all_goals decide

/-- C4: any candidate whose title, angle or target audience contains an
excluded-region (overseas) keyword scores zero on every sub-score and on the
total, independently of every other signal and of the locality bonus. -/
theorem score_item_overseas_zero (c : Cand) (k : Str) (hk : k ∈ OVERSEAS_KEYWORDS)
    (hin : k <:+: c.title ∨ k <:+: c.angle ∨ k <:+: c.target_audience) :
    score_item c = ⟨0, 0, 0, 0, 0⟩ := by
  have hov : has_overseas (lowerS c.title) (lowerS c.angle) (lowerS c.target_audience)
      = true := by
    unfold has_overseas hasAnyKw
    apply List.any_eq_true.2
    refine ⟨lowerS k, List.mem_map.2 ⟨k, hk, rfl⟩, ?_⟩
    rcases hin with h | h | h
    · exact containsSub_append_left _ _ _ (containsSub_append_left _ _ _
        (containsSub_append_left _ _ _ (containsSub_append_left _ _ _
          (containsSub_lowerS _ _ h))))
    · exact containsSub_append_left _ _ _ (containsSub_append_left _ _ _
        (containsSub_append_right _ _ _ (containsSub_lowerS _ _ h)))
    · exact containsSub_append_right _ _ _ (containsSub_lowerS _ _ h)
  simp [score_item, hov]

/-- C4 witness: a concrete candidate mentioning 日本 scores all zeros. -/
theorem score_item_overseas_zero_witness :
    ("日本").toList ∈ OVERSEAS_KEYWORDS ∧
    score_item ⟨("日本东京5天攻略").toList, ("花费拆解").toList, ("新手").toList⟩
      = ⟨0, 0, 0, 0, 0⟩ :=
  ⟨by decide, score_item_overseas_zero _ (("日本").toList) (by decide) (Or.inl (by decide))⟩

/-- C6 counterexample: this title has 11 CJK code points and two Latin/digit
tokens (`KL`, `RM99`).  Under the claim's measure (flat bonus per token) its
effective length is 15, inside the 14-18 window, so the claim predicts no
length failure — but `_validate_items` adds a flat 2 once (13 in total) and
rejects the item for length. -/
theorem validate_title_len_flat_bonus_cex :
    latinTokenCount (("KL到怡保两天一夜人均RM99超值").toList) = 2 ∧
    effective_len_spec (("KL到怡保两天一夜人均RM99超值").toList) = 15 ∧
    checkItem (("penang").toList) (("genting").toList)
        (.obj (("KL到怡保两天一夜人均RM99超值").toList) (("penang").toList)
          (("怡保火车站").toList))
      = .error .lengthOutOfRange := by
  refine ⟨by decide, by decide, ?_⟩
  rfl

/-- C6 amended: the effective title length is the CJK code-point count plus a
flat bonus of 2 added once when at least one contiguous Latin/digit token is
present (not per token); an item whose stripped fields are non-empty is
rejected with the length failure exactly when this effective length falls
outside the 14-18 window. -/
theorem checkItem_length_iff (a b t r h : Str)
    (ht : stripS t ≠ []) (hr : stripS r ≠ []) (hh : stripS h ≠ []) :
    checkItem a b (.obj t r h) = .error .lengthOutOfRange ↔
      (effective_len (stripS t) < 14 ∨ effective_len (stripS t) > 18) := by
  have hr' : ¬ (stripS t = [] ∨ lowerS (stripS r) = [] ∨ stripS h = []) := by
    simp only [lowerS, List.map_eq_nil_iff]
    push_neg
    exact ⟨ht, hr, hh⟩
  rw [show checkItem a b (.obj t r h) = checkItemCore a b t r h from rfl]
  unfold checkItemCore
  rw [if_neg hr']
  by_cases hl : effective_len (stripS t) < 14 ∨ effective_len (stripS t) > 18
  · rw [if_pos hl]
    simp [hl]
  · rw [if_neg hl]
    simp only [hl, iff_false]
    split_ifs <;> simp

/-- C6 witness: a concrete item with 11 CJK characters and Latin tokens has
code-effective length 13 < 14 and is indeed rejected with the length
failure, via the amended equivalence. -/
theorem checkItem_length_iff_witness :
    checkItem (("penang").toList) (("genting").toList)
        (.obj (("KL去云顶一日来回人均RM80").toList) (("genting").toList)
          (("云顶缆车").toList))
      = .error .lengthOutOfRange :=
  (checkItem_length_iff (("penang").toList) (("genting").toList)
      (("KL去云顶一日来回人均RM80").toList) (("genting").toList) (("云顶缆车").toList)
      (by decide) (by decide) (by decide)).2 (by decide)

theorem checkItem_ok_eq (a b : Str) (it : RItem) (p : Bool × Str)
    (h : checkItem a b it = .ok p) : p = (lacks_of it, region_of it) := by
  cases it with
  | nonObj => exact absurd h (by simp [checkItem])
  | obj t r hh =>
    rw [show checkItem a b (.obj t r hh) = checkItemCore a b t r hh from rfl] at h
    unfold checkItemCore at h
    split_ifs at h <;> simp_all [lacks_of, region_of]

theorem validateItemsGo_true (a b : Str) (l : List RItem) :
    ∀ (i : Nat) (seen : List Str) (fails : Nat),
    (validateItemsGo a b l i seen fails).1 = true →
    fails + count_lacking l ≤ 1 ∧
      (a ∈ seen ∨ a ∈ l.map region_of) ∧ (b ∈ seen ∨ b ∈ l.map region_of) := by
  induction l with
  | nil =>
    intro i seen fails h
    unfold validateItemsGo at h
    by_cases h1 : fails > 1
    · rw [if_pos h1] at h
      simp at h
    · rw [if_neg h1] at h
      by_cases h2 : a ∉ seen ∨ b ∉ seen
      · rw [if_pos h2] at h
        simp at h
      · rw [if_neg h2] at h
        push_neg at h2
        refine ⟨?_, Or.inl h2.1, Or.inl h2.2⟩
        simp only [count_lacking, List.filter_nil, List.length_nil]
        omega
  | cons it rest ih =>
    intro i seen fails h
    unfold validateItemsGo at h
    cases hc : checkItem a b it with
    | error r => rw [hc] at h; simp at h
    | ok p =>
      rw [hc] at h
      obtain ⟨h1, h2, h3⟩ := ih (i + 1) (p.2 :: seen) (fails + if p.1 then 1 else 0) h
      have hp := checkItem_ok_eq a b it p hc
      subst hp
      dsimp only at h1 h2 h3
      refine ⟨?_, ?_, ?_⟩
      · have hcl : count_lacking (it :: rest)
            = (if lacks_of it then 1 else 0) + count_lacking rest := by
          simp only [count_lacking, List.filter_cons]
          split_ifs
          · simp only [List.length_cons]
            omega
          · omega
        omega
      · rcases h2 with h2 | h2
        · rcases List.mem_cons.mp h2 with h2 | h2
          · exact Or.inr (by simp [h2])
          · exact Or.inl h2
        · exact Or.inr (by simp [h2])
      · rcases h3 with h3 | h3
        · rcases List.mem_cons.mp h3 with h3 | h3
          · exact Or.inr (by simp [h3])
          · exact Or.inl h3
        · exact Or.inr (by simp [h3])

/-- C8: `_validate_items` accepts a batch only when it has exactly 5 items, at
most one item lacks the concrete-location signal, and both assigned region
values occur among the items' normalized regions; violating any of these
conditions makes the whole batch fail. -/
theorem validateItems_accept_conditions (a b : Str) (l : List RItem)
    (h : (validate_items a b (.list l)).1 = true) :
    l.length = 5 ∧ count_lacking l ≤ 1 ∧ a ∈ l.map region_of ∧ b ∈ l.map region_of := by
  simp only [validate_items] at h
  split_ifs at h with h5
  obtain ⟨h1, h2, h3⟩ := validateItemsGo_true a b l 1 [] 0 h
  refine ⟨not_ne_iff.mp h5, by omega, ?_, ?_⟩
  · rcases h2 with h2 | h2
    · exact absurd h2 (List.not_mem_nil a)
    · exact h2
  · rcases h3 with h3 | h3
    · exact absurd h3 (List.not_mem_nil b)
    · exact h3

/-- C8 witness: a concrete accepted batch, with the region coverage and the
signal count read back off the accepted list. -/
theorem validateItems_accept_conditions_witness :
    ([.obj (("槟城这家Hotel人均五十我住过两晚").toList) (("penang").toList) (("乔治市老街").toList),
      .obj (("云顶Hotel半夜冷到我开暖气的一晚").toList) (("genting").toList) (("云顶第一城").toList),
      .obj (("槟城Hotel早餐人均十块我连吃三天").toList) (("penang").toList) (("新关仔角").toList),
      .obj (("云顶Hotel缆车排队两小时的教训").toList) (("genting").toList) (("云顶缆车站").toList),
      .obj (("槟城Hotel天台泳池风大到吹走帽子").toList) (("penang").toList) (("升旗山脚").toList)]
        : List RItem).length = 5 ∧
    count_lacking
      [.obj (("槟城这家Hotel人均五十我住过两晚").toList) (("penang").toList) (("乔治市老街").toList),
       .obj (("云顶Hotel半夜冷到我开暖气的一晚").toList) (("genting").toList) (("云顶第一城").toList),
       .obj (("槟城Hotel早餐人均十块我连吃三天").toList) (("penang").toList) (("新关仔角").toList),
       .obj (("云顶Hotel缆车排队两小时的教训").toList) (("genting").toList) (("云顶缆车站").toList),
       .obj (("槟城Hotel天台泳池风大到吹走帽子").toList) (("penang").toList) (("升旗山脚").toList)] ≤ 1 ∧
    ("penang").toList ∈
      ([.obj (("槟城这家Hotel人均五十我住过两晚").toList) (("penang").toList) (("乔治市老街").toList),
        .obj (("云顶Hotel半夜冷到我开暖气的一晚").toList) (("genting").toList) (("云顶第一城").toList),
        .obj (("槟城Hotel早餐人均十块我连吃三天").toList) (("penang").toList) (("新关仔角").toList),
        .obj (("云顶Hotel缆车排队两小时的教训").toList) (("genting").toList) (("云顶缆车站").toList),
        .obj (("槟城Hotel天台泳池风大到吹走帽子").toList) (("penang").toList) (("升旗山脚").toList)]
          : List RItem).map region_of ∧
    ("genting").toList ∈
      ([.obj (("槟城这家Hotel人均五十我住过两晚").toList) (("penang").toList) (("乔治市老街").toList),
        .obj (("云顶Hotel半夜冷到我开暖气的一晚").toList) (("genting").toList) (("云顶第一城").toList),
        .obj (("槟城Hotel早餐人均十块我连吃三天").toList) (("penang").toList) (("新关仔角").toList),
        .obj (("云顶Hotel缆车排队两小时的教训").toList) (("genting").toList) (("云顶缆车站").toList),
        .obj (("槟城Hotel天台泳池风大到吹走帽子").toList) (("penang").toList) (("升旗山脚").toList)]
          : List RItem).map region_of :=
  validateItems_accept_conditions (("penang").toList) (("genting").toList) _ (by decide)

theorem generate5Loop_step (a b : Str) (g : GenOut) (rest : List GenOut) (r last : String)
    (h : attempt_fail_reason a b g = some r) :
    generate5Loop a b (g :: rest) last = generate5Loop a b rest r := by
  cases g with
  | badJSON =>
    obtain rfl : ("invalid JSON" : String) = r := by
      simpa [attempt_fail_reason] using h
    rfl
  | parsed itf =>
    unfold attempt_fail_reason at h
    by_cases hv : (validate_items a b itf).1 = true
    · simp [hv] at h
    · obtain rfl : (validate_items a b itf).2 = r := by simpa [hv] using h
      show (if (validate_items a b itf).1 = true then Except.ok (extract_items itf)
            else generate5Loop a b rest (validate_items a b itf).2)
          = generate5Loop a b rest (validate_items a b itf).2
      rw [if_neg hv]

/-- C1 amended: when all three generator attempts fail (unparsable JSON or a
batch rejected by `_validate_items`), `generate_5_title_candidates` raises a
`ValueError` carrying the last attempt's failure reason — it does not return a
best-so-far result and has no `usedFallback` flag. -/
theorem generate5_exhausted_error (a b : Str) (g1 g2 g3 : GenOut) (r1 r2 r3 : String)
    (h1 : attempt_fail_reason a b g1 = some r1)
    (h2 : attempt_fail_reason a b g2 = some r2)
    (h3 : attempt_fail_reason a b g3 = some r3) :
    generate_5_title_candidates a b g1 g2 g3
      = .error ("title candidates validation failed after retries: " ++ r3) := by
  unfold generate_5_title_candidates
  rw [generate5Loop_step a b g1 _ _ _ h1, generate5Loop_step a b g2 _ _ _ h2,
    generate5Loop_step a b g3 _ _ _ h3]
  rfl

/-- C1 amended witness: three parse failures end in the raised error. -/
theorem generate5_exhausted_error_witness :
    generate_5_title_candidates (("penang").toList) (("genting").toList)
        .badJSON .badJSON .badJSON
      = .error ("title candidates validation failed after retries: " ++ "invalid JSON") :=
  generate5_exhausted_error (("penang").toList) (("genting").toList) .badJSON .badJSON
    .badJSON ("invalid JSON") ("invalid JSON") ("invalid JSON") rfl rfl rfl

/-- C1 counterexample: a run in which every attempt yields a parsed batch that
fails validation (a banned generic phrase in item 1) raises `ValueError`
instead of returning a best-so-far result with a fallback flag. -/
theorem generate5_all_invalid_raises_cex :
    attempt_fail_reason (("penang").toList) (("genting").toList) cexBadBatch
      = some ("item#1 title contains banned generic phrase") ∧
    generate_5_title_candidates (("penang").toList) (("genting").toList)
        cexBadBatch cexBadBatch cexBadBatch
      = .error ("title candidates validation failed after retries: item#1 title contains banned generic phrase") := by
  exact ⟨by decide, rfl⟩

theorem totalLen_cons (d : SkillDoc) (rest : List SkillDoc) :
    totalLen (d :: rest) = d.2.length + totalLen rest := by
  simp [totalLen]

theorem protTotal_cons (d : SkillDoc) (rest : List SkillDoc) :
    protTotal (d :: rest)
      = (if d.1 ∈ RULE_SKILL_FILES then d.2.length else 0) + protTotal rest := by
  unfold protTotal
  by_cases hd : d.1 ∈ RULE_SKILL_FILES <;> simp [hd, List.filter_cons, totalLen_cons]

theorem protTotal_eq_totalLen (l : List SkillDoc)
    (h : ∀ d ∈ l, d.1 ∈ RULE_SKILL_FILES) : protTotal l = totalLen l := by
  unfold protTotal
  rw [List.filter_eq_self.2 fun d hd => decide_eq_true (h d hd)]

theorem popLastUnprot_none (l : List SkillDoc) (h : popLastUnprot l = none) :
    ∀ d ∈ l, d.1 ∈ RULE_SKILL_FILES := by
  induction l with
  | nil => intro d hd; simp at hd
  | cons x rest ih =>
    intro d hd
    unfold popLastUnprot at h
    cases hr : popLastUnprot rest with
    | some r => rw [hr] at h; simp at h
    | none =>
      rw [hr] at h
      split_ifs at h with hx
      rcases List.mem_cons.mp hd with rfl | hd
      · exact hx
      · exact ih hr d hd

theorem popLastUnprot_some (l l' : List SkillDoc) (h : popLastUnprot l = some l') :
    (∀ d ∈ l, d.1 ∈ RULE_SKILL_FILES → d ∈ l') ∧ protTotal l' = protTotal l := by
  induction l generalizing l' with
  | nil => simp [popLastUnprot] at h
  | cons x rest ih =>
    unfold popLastUnprot at h
    cases hr : popLastUnprot rest with
    | some r =>
      rw [hr] at h
      obtain rfl : x :: r = l' := Option.some.inj h
      obtain ⟨ihm, ihp⟩ := ih r hr
      constructor
      · intro d hd hprot
        rcases List.mem_cons.mp hd with rfl | hd
        · exact List.mem_cons_self _ _
        · exact List.mem_cons_of_mem _ (ihm d hd hprot)
      · rw [protTotal_cons, protTotal_cons, ihp]
    | none =>
      rw [hr] at h
      split_ifs at h with hx
      obtain rfl : rest = l' := Option.some.inj h
      constructor
      · intro d hd hprot
        rcases List.mem_cons.mp hd with rfl | hd
        · exact absurd hprot hx
        · exact hd
      · rw [protTotal_cons, if_neg hx]
        omega

theorem enforceCapFuel_protected (n : Nat) :
    ∀ l : List SkillDoc, protTotal l ≤ SKILL_TEXT_CAP →
      ∀ d ∈ l, d.1 ∈ RULE_SKILL_FILES → d ∈ enforceCapFuel n l := by
  induction n with
  | zero =>
    intro l _ d hd _
    simpa [enforceCapFuel] using hd
  | succ n ih =>
    intro l hp d hd hprot
    unfold enforceCapFuel
    split_ifs with hcap hnil
    · subst hnil
      simp at hd
    · cases he : popLastUnprot l with
      | some l' =>
        obtain ⟨hmem, hpt⟩ := popLastUnprot_some l l' he
        have := ih l' (hpt ▸ hp) d (hmem d hd hprot) hprot
        simpa [evictStep, he] using this
      | none =>
        exfalso
        have heq := protTotal_eq_totalLen l (popLastUnprot_none l he)
        omega
    · exact hd

/-- C5 amended: the eviction loop removes one document at a time from the end,
preferring unprotected documents; when the cap is still exceeded and only
protected documents remain, it falls back to evicting the last remaining
(protected) document.  Consequently a protected rule document is never evicted
provided the combined length of the protected documents is within the cap. -/
theorem enforceSkillCap_protected_kept (l : List SkillDoc)
    (hp : protTotal l ≤ SKILL_TEXT_CAP) (d : SkillDoc) (hd : d ∈ l)
    (hprot : d.1 ∈ RULE_SKILL_FILES) : d ∈ enforceSkillCap l :=
  enforceCapFuel_protected l.length l hp d hd hprot

/-- C5 amended witness: with protected content inside the cap, the protected
document survives the eviction applied to a concrete over-long list. -/
theorem enforceSkillCap_protected_kept_witness :
    ((("growth_rules.md").toList, ("abc").toList) : SkillDoc) ∈
      enforceSkillCap
        [((("growth_rules.md").toList, ("abc").toList) : SkillDoc),
         ((("notes.md").toList, ("xy").toList) : SkillDoc)] :=
  enforceSkillCap_protected_kept _ (by decide) _ (by decide) (by decide)

/-- C5 counterexample: a single protected rule file longer than the cap IS
evicted — the loop's `idx = len(kept) - 1` fallback removes protected
documents once no unprotected ones remain, leaving an empty list, contrary to
the claim that protected documents are never evicted. -/
theorem enforceSkillCap_evicts_protected_cex :
    ((("growth_rules.md").toList, List.replicate 16001 'a') : SkillDoc) ∈
      ([((("growth_rules.md").toList, List.replicate 16001 'a'))] : List SkillDoc) ∧
    enforceSkillCap
      [((("growth_rules.md").toList, List.replicate 16001 'a') : SkillDoc)] = [] := by
  constructor
  · exact List.mem_singleton_self _
  · have h1 : totalLen [((("growth_rules.md").toList, List.replicate 16001 'a'))] = 16001 := by
      rw [totalLen, List.map_cons, List.map_nil]
      rw [List.length_replicate, List.sum_cons, List.sum_nil]
      omega
    show enforceCapFuel 1 [((("growth_rules.md").toList, List.replicate 16001 'a'))] = []
    rw [show enforceCapFuel 1 [((("growth_rules.md").toList, List.replicate 16001 'a'))]
        = (if totalLen [((("growth_rules.md").toList, List.replicate 16001 'a'))]
              > SKILL_TEXT_CAP then
            (if ([((("growth_rules.md").toList, List.replicate 16001 'a'))]
                  : List SkillDoc) = [] then []
             else enforceCapFuel 0
              (evictStep [((("growth_rules.md").toList, List.replicate 16001 'a'))]))
          else [((("growth_rules.md").toList, List.replicate 16001 'a'))]) from rfl]
    rw [if_pos (by rw [h1]; decide), if_neg (List.cons_ne_nil _ _)]
    have hstep : evictStep [((("growth_rules.md").toList, List.replicate 16001 'a'))]
        = [] := rfl
    rw [hstep]
    rfl

/-- C3 counterexample: a wins file whose content parses to a JSON value that
is not a dict (so there is no document with a list of items) is returned as an
empty collection with NO warning and NO backup — `load_wins` treats the
literal `[]` it substitutes for `items` as a valid list and returns quietly,
leaving the file untouched. -/
theorem loadWins_nonDict_no_backup_cex :
    load_wins "20250101_000000" (⟨true, some .nonDict, []⟩ : WinsFS Nat)
      = (([], none), (⟨true, some .nonDict, []⟩ : WinsFS Nat)) := rfl

/-- C3 amended: for a wins file whose content fails JSON parsing, or parses to
a dict whose `items` is missing or not a list, `load_wins` returns an empty
collection plus a non-null warning and first backs the corrupted content up
under the timestamped name; but a file parsing to a non-dict JSON value yields
an empty collection with no warning and no backup. -/
theorem loadWins_corrupt_backup_reset {α : Type} (ts : String) (fs : WinsFS α)
    (c : WinsJSON α) (hdir : fs.dataDirExists = true) (hfile : fs.winsFile = some c)
    (hc : c = .invalid ∨ c = .dict .missing ∨ c = .dict .notList) :
    load_wins ts fs
      = (([], some (corrupt_warning ts)),
         ⟨fs.dataDirExists, some (wins_default α), (backup_name ts, c) :: fs.backups⟩) := by
  obtain ⟨dir, file, bks⟩ := fs
  simp only at hdir hfile
  subst hdir
  subst hfile
  rcases hc with rfl | rfl | rfl <;> rfl

/-- C3 amended witness: a concrete unparsable snapshot is backed up, reset and
warned about. -/
theorem loadWins_corrupt_backup_reset_witness :
    load_wins "20250101_000000" (⟨true, some .invalid, []⟩ : WinsFS Nat)
      = (([], some (corrupt_warning "20250101_000000")),
         ⟨true, some (wins_default Nat), [(backup_name "20250101_000000", .invalid)]⟩) :=
  loadWins_corrupt_backup_reset "20250101_000000" (⟨true, some .invalid, []⟩ : WinsFS Nat)
    .invalid rfl rfl (Or.inl rfl)

/-- C9: the pick/toggle/clear callbacks preserve the `selected` invariant (at
most 2 entries, ascending, duplicate-free, each in 1..5), and a pick of a
not-yet-selected index on a draft that already has 2 selections leaves the
list unchanged. -/
theorem draft_selected_invariant (sel : List Int) (idx : Int) (h : selected_inv sel) :
    selected_inv (pick_selected sel idx) ∧ selected_inv (clear_selected sel) ∧
      (idx ∉ sel → sel.length = 2 → pick_selected sel idx = sel) := by
  obtain ⟨hlen, hsort, hnodup, hbound⟩ := h
  refine ⟨?_, ?_, ?_⟩
  · unfold pick_selected
    split_ifs with hrange hmem hfull
    · exact ⟨hlen, hsort, hnodup, hbound⟩
    · have hperm := List.perm_insertionSort (· ≤ ·) (sel.erase idx)
      refine ⟨?_, List.sorted_insertionSort _ _, hperm.symm.nodup (hnodup.erase idx), ?_⟩
      · rw [hperm.length_eq]
        exact le_trans (List.erase_sublist idx sel).length_le hlen
      · intro x hx
        exact hbound x (List.mem_of_mem_erase (hperm.mem_iff.mp hx))
    · exact ⟨hlen, hsort, hnodup, hbound⟩
    · push_neg at hrange
      have hnd : (sel ++ [idx]).Nodup := by
        rw [List.nodup_append]
        refine ⟨hnodup, List.nodup_singleton _, ?_⟩
        intro x hx hx'
        rw [List.mem_singleton] at hx'
        subst hx'
        exact hmem hx
      have hperm := List.perm_insertionSort (· ≤ ·) (sel ++ [idx])
      refine ⟨?_, List.sorted_insertionSort _ _, hperm.symm.nodup hnd, ?_⟩
      · rw [hperm.length_eq, List.length_append, List.length_singleton]
        omega
      · intro x hx
        rcases List.mem_append.mp (hperm.mem_iff.mp hx) with hx | hx
        · exact hbound x hx
        · rw [List.mem_singleton] at hx
          subst hx
          exact ⟨hrange.1, hrange.2⟩
  · exact ⟨by simp [clear_selected], by simp [clear_selected], by simp [clear_selected],
      by simp [clear_selected]⟩
  · intro hmem h2
    unfold pick_selected
    split_ifs with hrange hm
    · rfl
    · rfl
    · exact absurd h2 (by omega)

/-- C9 witness: picking index 2 on the full selection `[1, 3]` leaves it
unchanged and every operation preserves the invariant. -/
theorem draft_selected_invariant_witness :
    selected_inv ([1, 3] : List Int) ∧
      (selected_inv (pick_selected [1, 3] 2) ∧ selected_inv (clear_selected [1, 3]) ∧
        ((2 : Int) ∉ ([1, 3] : List Int) → ([1, 3] : List Int).length = 2 →
          pick_selected [1, 3] 2 = [1, 3])) :=
  ⟨by decide, draft_selected_invariant [1, 3] 2 (by decide)⟩


theorem upsertRule_always_error (store : RuleStore) (now ingId scriptHash : Str)
    (why ex ctype : Str) (hookTypes tags : List Str) (ruleText : Str) :
    upsertRule store now ingId scriptHash why ex ctype hookTypes tags ruleText
      = .error .conflictingUpdateOperators := rfl

/-- C2: the rule-upsert update document of `store_learning` targets `sources`
in both `$setOnInsert` and `$addToSet`, so MongoDB rejects every
`skill_rules.update_one` call with `ConflictingUpdateOperators` before
writing anything: calling the upsert with a rule text — once or twice, and
regardless of the prior store — raises instead of storing, so no record is
ever created and no `seen_count` reaches 2.  The claim describes the
document's intended merge, which — applied without the operator conflict —
would indeed leave exactly one record with `seen_count = 2` after two
calls. -/
theorem upsertRule_conflict_bug (r n1 n2 i1 i2 s1 s2 w1 w2 e1 e2 ct1 ct2 : Str)
    (ht1 ht2 tg1 tg2 : List Str) (store : RuleStore) :
    upsertRule store n1 i1 s1 w1 e1 ct1 ht1 tg1 r = .error .conflictingUpdateOperators ∧
    ((upsertRuleApplied (upsertRuleApplied [] n1 i1 s1 w1 e1 ct1 ht1 tg1 r).1
        n2 i2 s2 w2 e2 ct2 ht2 tg2 r).1).length = 1 ∧
    ∃ rec : RuleRecord,
      lookupA ((upsertRuleApplied (upsertRuleApplied [] n1 i1 s1 w1 e1 ct1 ht1 tg1 r).1
          n2 i2 s2 w2 e2 ct2 ht2 tg2 r).1) (rule_id r) = some rec ∧
      rec.seen_count = 2 := by
  refine ⟨upsertRule_always_error store n1 i1 s1 w1 e1 ct1 ht1 tg1 r, ?_⟩
  have hlook : lookupA
      [(rule_id r, (⟨r, n1, [⟨i1, s1, n1⟩], w1, e1, ct1, ht1, tg1, n1, 1⟩ : RuleRecord))]
      (rule_id r)
      = some ⟨r, n1, [⟨i1, s1, n1⟩], w1, e1, ct1, ht1, tg1, n1, 1⟩ := by
    simp [lookupA]
  have h2 : (upsertRuleApplied (upsertRuleApplied [] n1 i1 s1 w1 e1 ct1 ht1 tg1 r).1
      n2 i2 s2 w2 e2 ct2 ht2 tg2 r).1
      = [(rule_id r,
          ⟨r, n1, add_to_set [⟨i1, s1, n1⟩] ⟨i2, s2, n2⟩, w2, e2, ct2, ht2, tg2, n2, 2⟩)] := by
    show (upsertRuleApplied
        [(rule_id r, (⟨r, n1, [⟨i1, s1, n1⟩], w1, e1, ct1, ht1, tg1, n1, 1⟩ : RuleRecord))]
        n2 i2 s2 w2 e2 ct2 ht2 tg2 r).1 = _
    simp [upsertRuleApplied, hlook, updateA]
  rw [h2]
  refine ⟨rfl,
    ⟨⟨r, n1, add_to_set [⟨i1, s1, n1⟩] ⟨i2, s2, n2⟩, w2, e2, ct2, ht2, tg2, n2, 2⟩, ?_, rfl⟩⟩
  simp [lookupA]

theorem process_rules_err (now ingId scriptHash ctype : Str) (hookTypes tags : List Str)
    (l : List RuleEntry) :
    ∀ (store : RuleStore) (n u v : Nat), (l.filter valid_rule_entry).length ≠ 0 →
      (process_rules now ingId scriptHash ctype hookTypes tags l store n u v).2
        = some .conflictingUpdateOperators := by
  induction l with
  | nil =>
    intro store n u v h
    simp at h
  | cons e rest ih =>
    intro store n u v h
    cases e with
    | notDict =>
      show (process_rules now ingId scriptHash ctype hookTypes tags rest store n u v).2 = _
      refine ih store n u v ?_
      simpa [List.filter_cons, valid_rule_entry] using h
    | obj rule why ex =>
      by_cases hrt : stripS rule = []
      · have hf : valid_rule_entry (RuleEntry.obj rule why ex) = false := by
          simp [valid_rule_entry, hrt]
        simp only [process_rules]
        rw [if_pos hrt]
        refine ih store n u v ?_
        simpa [List.filter_cons, hf] using h
      · simp only [process_rules]
        rw [if_neg hrt, upsertRule_always_error]

/-- C10: `store_learning` never delivers its counters whenever the analysis
has at least one valid reusable-rules entry: the first valid entry's
`skill_rules.update_one` raises `ConflictingUpdateOperators` (its update
document targets `sources` in both `$setOnInsert` and `$addToSet`), so the
function raises instead of returning a result with
`rules_processed = new_rules + updated_rules` equal to the number of valid
entries. -/
theorem store_learning_raises_on_valid_rule (meta : Metadata) (a : Analysis) (script : Str)
    (tg : TGRef) (st : SkillState) (now winNow failNow : Str)
    (h : count_valid_rules a.reusable_rules ≠ 0) :
    (store_learning meta a script tg st now winNow failNow).1
      = .error .conflictingUpdateOperators := by
  unfold store_learning
  rw [if_neg (show ¬ ingestUpdateConflict = true from by decide)]
  cases hr : a.reusable_rules with
  | absent =>
    rw [hr] at h
    simp [count_valid_rules] at h
  | notList =>
    rw [hr] at h
    simp [count_valid_rules] at h
  | list l =>
    rw [hr] at h
    have hcount : (l.filter valid_rule_entry).length ≠ 0 := by
      simpa [count_valid_rules] using h
    have herr := process_rules_err now (ing_id_of (script_hash_of script))
      (script_hash_of script) a.content_type a.hook_types a.tags l st.rules 0 0 0 hcount
    dsimp only
    rcases hp : process_rules now (ing_id_of (script_hash_of script)) (script_hash_of script)
        a.content_type a.hook_types a.tags l st.rules 0 0 0 with ⟨pr, oe⟩
    rw [hp] at herr
    dsimp only at herr
    subst herr
    rfl

/-- C10 witness: a concrete analysis with one valid rule entry makes
`store_learning` raise the conflict error instead of returning counters. -/
theorem store_learning_raises_on_valid_rule_witness :
    (store_learning ⟨[], [], []⟩
        ⟨("hook").toList, [], ("other").toList, [],
          .list [.obj ("always open with a hook").toList ("why").toList ("ex").toList], []⟩
        ("script text").toList ⟨1, 2, 3⟩ ⟨[], [], []⟩ ("t1").toList ("t2").toList
        ("t3").toList).1
      = .error .conflictingUpdateOperators :=
  store_learning_raises_on_valid_rule ⟨[], [], []⟩
    ⟨("hook").toList, [], ("other").toList, [],
      .list [.obj ("always open with a hook").toList ("why").toList ("ex").toList], []⟩
    (("script text").toList) ⟨1, 2, 3⟩ ⟨[], [], []⟩ ("t1").toList ("t2").toList
    ("t3").toList (by decide)

end XhsBot
